import Mathlib

/-!
Verification of the channel-construction orchestration in
src/core/ext/transport/chttp2/client/secure/secure_channel_create.c.

The file is a shallow embedding of the orchestration: the three functions
under src (client_channel_factory_unref, client_channel_factory_create_subchannel,
client_channel_factory_create_channel, grpc_secure_channel_create) are
translated from the C source; external collaborators that live elsewhere in
the repository (channel-args helpers, credentials, resolver, channel stack,
subchannel construction) are modelled from the specification, each marked by a
doc comment starting with "Modelled from the spec:". Reference counts are
tracked in an explicit ledger threaded through the execution, together with an
event trace used for the ordering properties.
-/

namespace SecureChannelCreate

/-- Status code carried by a lame channel; only the values that
secure_channel_create.c uses are modelled. -/
inductive StatusCode
  | ok
  | internal
deriving DecidableEq, Repr

/-- Value of a channel-args entry: the source only distinguishes the
security-connector pointer entry from every other kind of entry. -/
inductive ArgValue
  | securityConnector (id : Nat)
  | other (s : String)
deriving DecidableEq, Repr

/-- One key-value entry of a channel-args list (grpc_arg). -/
structure Arg where
  key : String
  value : ArgValue
deriving DecidableEq, Repr

/-- Modelled from the spec: the channel-args key under which the security
connector back-reference entry is stored (GRPC_SECURITY_CONNECTOR_ARG, defined
outside src). -/
def securityConnectorKey : String := "grpc.security_connector"

/-- An entry is a security-state entry when it has the security-connector key
and holds a security-connector pointer. -/
def isSecurityArg (a : Arg) : Bool :=
  match a.value with
  | .securityConnector _ => a.key == securityConnectorKey
  | .other _ => false

/-- Number of security-state entries in a channel-args list. -/
def countSecurityArgs (args : List Arg) : Nat :=
  args.countP isSecurityArg

/-- Modelled from the spec: grpc_find_security_connector_in_args (outside src)
returns the security connector stored in the args, if a security-state entry
is present, and nothing otherwise. -/
def grpc_find_security_connector_in_args : List Arg → Option Nat
  | [] => none
  | a :: rest =>
    match a.value with
    | .securityConnector i =>
        if a.key == securityConnectorKey then some i
        else grpc_find_security_connector_in_args rest
    | .other _ => grpc_find_security_connector_in_args rest

/-- Modelled from the spec: grpc_security_connector_to_arg (outside src)
builds the back-reference entry pointing at the security connector. -/
def grpc_security_connector_to_arg (sc : Nat) : Arg :=
  ⟨securityConnectorKey, .securityConnector sc⟩

/-- Modelled from the spec: grpc_channel_args_copy_and_add (outside src)
returns a defensive copy of the given args with the additional entries
appended last. -/
def grpc_channel_args_copy_and_add (base : List Arg) (toAdd : List Arg) : List Arg :=
  base ++ toAdd

/-- Events recorded during construction, used for the ordering properties. -/
inductive Event
  | callCreateSecurityConnector
  | mergeProduced
  | destroyDerivedConfig
  | factoryCreated
  | callChannelCreate
  | callResolverCreate
  | finishInitialization
deriving DecidableEq, Repr

/-- Reference-count ledger and event trace threaded through a construction.
A reference drop on a count already at zero, or a destroy of an object no
longer alive, sets err (a double free). -/
structure St where
  scRefs : Nat := 0
  scFreed : Bool := false
  factoryRefs : Nat := 0
  factoryFreed : Bool := false
  resRefs : Nat := 0
  chanRefs : Nat := 0
  newArgsAlive : Bool := false
  derivedDestroyCount : Nat := 0
  err : Bool := false
  events : List Event := []
deriving DecidableEq, Repr

/-- Append an event to the trace, in execution order. -/
def logEvent (st : St) (e : Event) : St :=
  { st with events := st.events ++ [e] }

/-- Modelled from the spec: GRPC_SECURITY_CONNECTOR_UNREF drops one reference
to the security connector; at zero the connector and its owned material are
freed; a drop past zero is a double free. -/
def scUnref (st : St) : St :=
  if st.scRefs = 0 then { st with err := true }
  else if st.scRefs = 1 then { st with scRefs := 0, scFreed := true }
  else { st with scRefs := st.scRefs - 1 }

/-- Modelled from the spec: GRPC_RESOLVER_UNREF drops one reference to the
resolver. -/
def resUnref (st : St) : St :=
  if st.resRefs = 0 then { st with err := true }
  else { st with resRefs := st.resRefs - 1 }

/-- Modelled from the spec: GRPC_CHANNEL_INTERNAL_UNREF drops one reference to
the channel; at zero the partially built channel is released. -/
def chanUnref (st : St) : St :=
  if st.chanRefs = 0 then { st with err := true }
  else { st with chanRefs := st.chanRefs - 1 }

/-- Modelled from the spec: grpc_channel_args_destroy on the merged config;
destroying it twice is a double free. -/
def destroyNewArgs (st : St) : St :=
  if st.newArgsAlive then { st with newArgsAlive := false }
  else { st with err := true }

/-- Embedding of client_channel_factory_unref from the source: drop one
reference to the factory capability; when the count reaches zero, unreference
the held security connector and free the factory. -/
def client_channel_factory_unref (st : St) : St :=
  if st.factoryRefs = 0 then { st with err := true }
  else if st.factoryRefs = 1 then
    scUnref { st with factoryRefs := 0, factoryFreed := true }
  else { st with factoryRefs := st.factoryRefs - 1 }

/-- Outcomes of the external collaborator calls made during one construction:
the result of grpc_channel_credentials_create_security_connector (none on
GRPC_SECURITY_ERROR, otherwise the connector and the optional derived config
fragment), and the result of grpc_resolver_create (none on failure). -/
structure Env where
  createSecurityConnector : Option (Nat × Option (List Arg))
  resolverCreate : Option Nat
deriving DecidableEq, Repr

/-- A live channel as observable after construction: the target and config it
was created from, and the references its stack retains. -/
structure LiveChannel where
  target : String
  args : List Arg
  holdsFactory : Bool
  holdsResolver : Bool
deriving DecidableEq, Repr

/-- Result of grpc_secure_channel_create: a live channel, a lame channel with
its status and message, a null return, or an assertion failure. -/
inductive ChannelResult
  | live (c : LiveChannel)
  | lame (target : String) (status : StatusCode) (message : String)
  | null
  | abort
deriving DecidableEq, Repr

/-- Modelled from the spec: ChannelStackCreate (grpc_channel_create, outside
src) always returns a channel; the constructor holds one internal reference. -/
def grpc_channel_create (st : St) : St :=
  logEvent { st with chanRefs := st.chanRefs + 1 } .callChannelCreate

/-- Modelled from the spec: ChannelStackFinishInit
(grpc_client_channel_finish_initialization, outside src) wires the resolver
and the factory capability into the channel stack, which retains one
reference to each. -/
def grpc_client_channel_finish_initialization (st : St) : St :=
  logEvent { st with resRefs := st.resRefs + 1, factoryRefs := st.factoryRefs + 1 }
    .finishInitialization

/-- Embedding of client_channel_factory_create_channel from the source: create
the channel object, attempt to create a resolver for the target; on failure
release the partially built channel and return nothing; on success wire the
resolver and factory into the channel stack and drop the local resolver
reference. -/
def client_channel_factory_create_channel (env : Env) (target : String)
    (args : List Arg) (st : St) : Option LiveChannel × St :=
  let st1 := grpc_channel_create st
  let st2 := logEvent st1 .callResolverCreate
  match env.resolverCreate with
  | none => (none, chanUnref st2)
  | some _ =>
      let st3 := { st2 with resRefs := st2.resRefs + 1 }
      let st4 := grpc_client_channel_finish_initialization st3
      let st5 := resUnref st4
      (some ⟨target, args, true, true⟩, st5)

/-- Embedding of grpc_secure_channel_create from the source. The reserved
pointer must be null (GPR_ASSERT); an assertion failure is the abort result.
The function checks for a pre-existing security-state entry, creates the
security connector, builds the merged config, allocates the factory
capability, creates the channel through the factory, and releases its local
references. -/
def grpc_secure_channel_create (env : Env) (creds : Nat) (target : String)
    (args : List Arg) (reserved : Option Unit) : ChannelResult × St :=
  let st : St := {}
  match reserved with
  | some _ => (.abort, st)
  | none =>
    match grpc_find_security_connector_in_args args with
    | some _ =>
        (.lame target .internal "Security connector exists in channel args.", st)
    | none =>
      let st1 := logEvent st .callCreateSecurityConnector
      match env.createSecurityConnector with
      | none =>
          (.lame target .internal "Failed to create security connector.", st1)
      | some (sc, newArgsFromConnector) =>
        let st2 := { st1 with scRefs := 1 }
        let connectorArg := grpc_security_connector_to_arg sc
        let newArgs := grpc_channel_args_copy_and_add
          (match newArgsFromConnector with
           | some derived => derived
           | none => args) [connectorArg]
        let st3 := logEvent { st2 with newArgsAlive := true } .mergeProduced
        let st4 := match newArgsFromConnector with
          | some _ =>
              logEvent { st3 with derivedDestroyCount := st3.derivedDestroyCount + 1 }
                .destroyDerivedConfig
          | none => st3
        let st5 := logEvent { st4 with factoryRefs := 1 } .factoryCreated
        let st6 := { st5 with scRefs := st5.scRefs + 1 }
        let res := client_channel_factory_create_channel env target newArgs st6
        let st7 := scUnref res.2
        let st8 := destroyNewArgs st7
        let st9 := client_channel_factory_unref st8
        match res.1 with
        | none => (.null, st9)
        | some c => (.live c, st9)

/-- The merged configuration as the source builds it: a copy of the
connector-derived config when one was produced, otherwise of the caller args,
with the connector back-reference entry appended last. -/
def mergedConfig (base : List Arg) (derived : Option (List Arg)) (sc : Nat) : List Arg :=
  grpc_channel_args_copy_and_add
    (match derived with
     | some d => d
     | none => base) [grpc_security_connector_to_arg sc]

/-- The configuration merge as the specification words describe it: derived
entries first (lower precedence), base entries second overriding derived
entries on key conflicts, and the connector back-reference entry appended
last. Written from the words of the spec, for comparison with mergedConfig. -/
def specDescribedMerge (base : List Arg) (derived : Option (List Arg)) (sc : Nat) :
    List Arg :=
  let d := derived.getD []
  (d.filter fun a => ¬ base.any fun b => b.key == a.key) ++ base ++
    [grpc_security_connector_to_arg sc]

/-- Every reference acquired during construction has been released: no count
is left positive and the merged config is gone. -/
def allReleased (st : St) : Prop :=
  st.scRefs = 0 ∧ st.factoryRefs = 0 ∧ st.resRefs = 0 ∧ st.chanRefs = 0 ∧
  st.newArgsAlive = false

/-- Ledger shape after a successful construction: the security connector
holds exactly the one reference retained through the live channel's factory
capability (neither was freed), the resolver and channel each keep exactly the
reference the channel stack and the caller retain, and the channel holds the
factory and the resolver. -/
def liveRetained (c : LiveChannel) (st : St) : Prop :=
  st.scRefs = 1 ∧ st.factoryRefs = 1 ∧ st.resRefs = 1 ∧ st.chanRefs = 1 ∧
  st.scFreed = false ∧ st.factoryFreed = false ∧ st.newArgsAlive = false ∧
  c.holdsFactory = true ∧ c.holdsResolver = true

/-- Outcome of the downstream subchannel-construction call: whether
grpc_subchannel_create retains its own reference on the transport connector. -/
structure SubEnv where
  subchannelRetainsConnector : Bool
deriving DecidableEq, Repr

/-- Ledger for the transport connector created during subchannel
construction. -/
structure SubSt where
  connRefs : Nat := 0
  connUnrefCount : Nat := 0
  err : Bool := false
deriving DecidableEq, Repr

/-- A transport connector: the server name it targets and whether the
security handshake step was attached by the handshaker installer. -/
structure Connector where
  serverName : String
  hasSecurityHandshaker : Bool
deriving DecidableEq, Repr

/-- A subchannel object, holding the connector it was built from. -/
structure Subchannel where
  connector : Connector
deriving DecidableEq, Repr

/-- Modelled from the spec: ConnectorCreate (grpc_chttp2_connector_create,
outside src) is a pure constructor with no I/O; the installer argument
(add_handshakers from the source, closing over the held security connector)
attaches the security handshake step. The fresh connector carries one
reference. -/
def grpc_chttp2_connector_create (serverName : String) (st : SubSt) :
    Connector × SubSt :=
  (⟨serverName, true⟩, { st with connRefs := st.connRefs + 1 })

/-- Modelled from the spec: grpc_subchannel_create (outside src) never fails
at this layer; it may retain its own reference to the transport connector. -/
def grpc_subchannel_create (env : SubEnv) (c : Connector) (st : SubSt) :
    Subchannel × SubSt :=
  (⟨c⟩,
   if env.subchannelRetainsConnector then { st with connRefs := st.connRefs + 1 }
   else st)

/-- Modelled from the spec: grpc_connector_unref (outside src) drops one
reference to the transport connector; a drop past zero is a double free. -/
def grpc_connector_unref (st : SubSt) : SubSt :=
  if st.connRefs = 0 then { st with err := true, connUnrefCount := st.connUnrefCount + 1 }
  else { st with connRefs := st.connRefs - 1, connUnrefCount := st.connUnrefCount + 1 }

/-- Embedding of client_channel_factory_create_subchannel from the source:
create the transport connector with the security handshaker installer, build
the subchannel, drop the local connector reference, return the subchannel. -/
def client_channel_factory_create_subchannel (env : SubEnv) (serverName : String)
    (st : SubSt) : Subchannel × SubSt :=
  let r1 := grpc_chttp2_connector_create serverName st
  let r2 := grpc_subchannel_create env r1.1 r1.2
  let st3 := grpc_connector_unref r2.2
  (r2.1, st3)

/-! Helper lemmas shared by the claim theorems. -/

theorem no_security_arg_of_find_none (args : List Arg)
    (h : grpc_find_security_connector_in_args args = none) :
    ∀ a ∈ args, isSecurityArg a = false := by
  induction args with
  | nil => intro a ha; cases ha
  | cons a rest ih =>
    intro b hb
    unfold grpc_find_security_connector_in_args at h
    cases hv : a.value with
    | securityConnector i =>
      rw [hv] at h
      cases hk : (a.key == securityConnectorKey) with
      | true => simp [hk] at h
      | false =>
        simp only [hk, Bool.false_eq_true, if_false] at h
        cases hb with
        | head => simp [isSecurityArg, hv, hk]
        | tail _ hb2 => exact ih h b hb2
    | other s =>
      rw [hv] at h
      cases hb with
      | head => simp [isSecurityArg, hv]
      | tail _ hb2 => exact ih h b hb2

theorem countSecurityArgs_eq_zero_of_find_none (args : List Arg)
    (h : grpc_find_security_connector_in_args args = none) :
    countSecurityArgs args = 0 := by
  have h2 := no_security_arg_of_find_none args h
  rw [countSecurityArgs, List.countP_eq_zero]
  intro a ha
  simp [h2 a ha]

theorem countSecurityArgs_append (l1 l2 : List Arg) :
    countSecurityArgs (l1 ++ l2) = countSecurityArgs l1 + countSecurityArgs l2 := by
  simp [countSecurityArgs, List.countP_append]

theorem isSecurityArg_to_arg (sc : Nat) :
    isSecurityArg (grpc_security_connector_to_arg sc) = true := by
  simp [isSecurityArg, grpc_security_connector_to_arg]

theorem countSecurityArgs_mergedConfig (base : List Arg) (derived : Option (List Arg))
    (sc : Nat) (hbase : countSecurityArgs base = 0)
    (hder : ∀ d, derived = some d → countSecurityArgs d = 0) :
    countSecurityArgs (mergedConfig base derived sc) = 1 := by
  have hsingle : countSecurityArgs [grpc_security_connector_to_arg sc] = 1 := by
    rw [countSecurityArgs, List.countP_cons, List.countP_nil, isSecurityArg_to_arg]
    simp
  cases derived with
  | none =>
    rw [mergedConfig, grpc_channel_args_copy_and_add]
    rw [countSecurityArgs_append, hbase, hsingle]
  | some d =>
    rw [mergedConfig, grpc_channel_args_copy_and_add]
    rw [countSecurityArgs_append, hder d rfl, hsingle]

/-! Claim theorems. -/

/-- Claim C1: for every input where the channel args already contain a
security-state (security connector) entry, grpc_secure_channel_create returns
a lame channel with status internal and message "Security connector exists in
channel args.", and the security connector creation step is never invoked: the
creation call does not appear in the trace and no connector reference is ever
taken. -/
theorem C1_preexisting_connector_lame (env : Env) (creds : Nat) (target : String)
    (args : List Arg) (sc : Nat)
    (h : grpc_find_security_connector_in_args args = some sc) :
    (grpc_secure_channel_create env creds target args none).1 =
      .lame target .internal "Security connector exists in channel args." ∧
    Event.callCreateSecurityConnector ∉
      (grpc_secure_channel_create env creds target args none).2.events ∧
    (grpc_secure_channel_create env creds target args none).2.scRefs = 0 := by
  unfold grpc_secure_channel_create
  rw [h]
  simp

/-- Witness for C1 at a concrete input: args holding one security-state
entry. -/
theorem C1_witness :
    (grpc_secure_channel_create ⟨none, none⟩ 0 "t"
        [⟨securityConnectorKey, .securityConnector 4⟩] none).1 =
      .lame "t" .internal "Security connector exists in channel args." ∧
    Event.callCreateSecurityConnector ∉
      (grpc_secure_channel_create ⟨none, none⟩ 0 "t"
        [⟨securityConnectorKey, .securityConnector 4⟩] none).2.events ∧
    (grpc_secure_channel_create ⟨none, none⟩ 0 "t"
        [⟨securityConnectorKey, .securityConnector 4⟩] none).2.scRefs = 0 :=
  C1_preexisting_connector_lame ⟨none, none⟩ 0 "t"
    [⟨securityConnectorKey, .securityConnector 4⟩] 4 (by decide)

/-- Claim C2: when security connector creation fails,
grpc_secure_channel_create returns a lame channel with internal status and the
message "Failed to create security connector.", and no resolver creation is
ever attempted on that execution. -/
theorem C2_connector_failure_no_resolver (env : Env) (creds : Nat)
    (target : String) (args : List Arg)
    (hargs : grpc_find_security_connector_in_args args = none)
    (hfail : env.createSecurityConnector = none) :
    (grpc_secure_channel_create env creds target args none).1 =
      .lame target .internal "Failed to create security connector." ∧
    Event.callResolverCreate ∉
      (grpc_secure_channel_create env creds target args none).2.events := by
  unfold grpc_secure_channel_create
  rw [hargs, hfail]
  simp [logEvent]

/-- Witness for C2 at a concrete input: empty args, failing connector
creation. -/
theorem C2_witness :
    (grpc_secure_channel_create ⟨none, some 3⟩ 0 "t" [] none).1 =
      .lame "t" .internal "Failed to create security connector." ∧
    Event.callResolverCreate ∉
      (grpc_secure_channel_create ⟨none, some 3⟩ 0 "t" [] none).2.events :=
  C2_connector_failure_no_resolver ⟨none, some 3⟩ 0 "t" [] (by decide) (by decide)

/-- Claim C7: for every well-formed subchannel-args input, the factory's
create-subchannel operation never fails: it always returns a subchannel built
from a transport connector for the requested server name with the security
handshaker attached, and no error occurs during construction. -/
theorem C7_subchannel_never_fails (env : SubEnv) (serverName : String) :
    (client_channel_factory_create_subchannel env serverName {}).1 =
      ⟨⟨serverName, true⟩⟩ ∧
    (client_channel_factory_create_subchannel env serverName {}).2.err = false := by
  obtain ⟨b⟩ := env
  cases b <;>
    simp [client_channel_factory_create_subchannel, grpc_chttp2_connector_create,
      grpc_subchannel_create, grpc_connector_unref]

/-- Claim C9: in every invocation of create-subchannel the locally created
transport connector is released exactly once before the function returns, and
the factory retains no connector reference afterwards: the only reference
possibly left is the one the subchannel itself retained. -/
theorem C9_connector_released_once (env : SubEnv) (serverName : String) :
    (client_channel_factory_create_subchannel env serverName {}).2.connUnrefCount
      = 1 ∧
    (client_channel_factory_create_subchannel env serverName {}).2.connRefs =
      (if env.subchannelRetainsConnector then 1 else 0) ∧
    (client_channel_factory_create_subchannel env serverName {}).2.err = false := by
  obtain ⟨b⟩ := env
  cases b <;>
    simp [client_channel_factory_create_subchannel, grpc_chttp2_connector_create,
      grpc_subchannel_create, grpc_connector_unref]

/-- Claim C8: grpc_secure_channel_create asserts reserved == NULL at the
public interface: any call with a non-null reserved pointer aborts via the
assertion instead of returning a lame channel or null. -/
theorem C8_reserved_assertion (env : Env) (creds : Nat) (target : String)
    (args : List Arg) :
    (grpc_secure_channel_create env creds target args (some ())).1 =
      .abort := rfl

/-- Claim C5: on every execution (with null reserved pointer) no reference is
dropped twice; a lame return releases everything acquired; a null return
releases everything and has freed both the connector and the factory; and
after a successful return the security connector holds exactly one reference,
the one retained through the live channel's factory capability. -/
theorem C5_reference_balance (env : Env) (creds : Nat) (target : String)
    (args : List Arg) :
    (grpc_secure_channel_create env creds target args none).2.err = false ∧
    (∀ c, (grpc_secure_channel_create env creds target args none).1 = .live c →
      liveRetained c (grpc_secure_channel_create env creds target args none).2) ∧
    (∀ t s m, (grpc_secure_channel_create env creds target args none).1 =
        .lame t s m →
      allReleased (grpc_secure_channel_create env creds target args none).2) ∧
    ((grpc_secure_channel_create env creds target args none).1 = .null →
      allReleased (grpc_secure_channel_create env creds target args none).2 ∧
      (grpc_secure_channel_create env creds target args none).2.scFreed = true ∧
      (grpc_secure_channel_create env creds target args none).2.factoryFreed
        = true) := by
  obtain ⟨csc, rsv⟩ := env
  cases hf : grpc_find_security_connector_in_args args with
  | some s =>
    unfold grpc_secure_channel_create
    rw [hf]
    simp [allReleased, liveRetained]
  | none =>
    cases csc with
    | none =>
      unfold grpc_secure_channel_create
      rw [hf]
      simp [allReleased, liveRetained, logEvent]
    | some p =>
      obtain ⟨sc, der⟩ := p
      cases der <;> cases rsv <;>
        (unfold grpc_secure_channel_create
         rw [hf]
         simp [allReleased, liveRetained, client_channel_factory_create_channel,
           grpc_channel_create, grpc_client_channel_finish_initialization,
           logEvent, scUnref, resUnref, chanUnref, destroyNewArgs,
           client_channel_factory_unref])

/-- Witness for C5 at a concrete successful construction: the live channel
retains exactly the expected references. -/
theorem C5_witness :
    liveRetained ⟨"t", [⟨securityConnectorKey, .securityConnector 5⟩], true, true⟩
      (grpc_secure_channel_create ⟨some (5, none), some 3⟩ 0 "t" [] none).2 :=
  (C5_reference_balance ⟨some (5, none), some 3⟩ 0 "t" []).2.1
    ⟨"t", [⟨securityConnectorKey, .securityConnector 5⟩], true, true⟩ rfl

/-- Claim C3: if resolver creation fails after a valid security connector and
factory capability were built, grpc_secure_channel_create releases the
partially built channel, the factory, the connector and the merged config
(every count back to zero, connector and factory freed, no double free) and
returns null; and a null return happens on no other path with a null reserved
pointer. -/
theorem C3_resolver_failure_null (env : Env) (creds : Nat) (target : String)
    (args : List Arg) (sc : Nat) (derived : Option (List Arg))
    (hargs : grpc_find_security_connector_in_args args = none)
    (hcre : env.createSecurityConnector = some (sc, derived))
    (hres : env.resolverCreate = none) :
    ((grpc_secure_channel_create env creds target args none).1 = .null ∧
     allReleased (grpc_secure_channel_create env creds target args none).2 ∧
     (grpc_secure_channel_create env creds target args none).2.scFreed = true ∧
     (grpc_secure_channel_create env creds target args none).2.factoryFreed
       = true ∧
     (grpc_secure_channel_create env creds target args none).2.err = false) ∧
    ∀ env2 : Env, ∀ creds2 : Nat, ∀ target2 : String, ∀ args2 : List Arg,
      (grpc_secure_channel_create env2 creds2 target2 args2 none).1 = .null →
      grpc_find_security_connector_in_args args2 = none ∧
      env2.createSecurityConnector ≠ none ∧ env2.resolverCreate = none := by
  constructor
  · obtain ⟨csc, rsv⟩ := env
    have hcre2 : csc = some (sc, derived) := hcre
    have hres2 : rsv = none := hres
    subst hcre2
    subst hres2
    cases derived <;>
      (unfold grpc_secure_channel_create
       rw [hargs]
       simp [allReleased, client_channel_factory_create_channel,
         grpc_channel_create, grpc_client_channel_finish_initialization,
         logEvent, scUnref, resUnref, chanUnref, destroyNewArgs,
         client_channel_factory_unref])
  · intro env2 creds2 target2 args2 hnull
    obtain ⟨csc2, rsv2⟩ := env2
    cases hf2 : grpc_find_security_connector_in_args args2 with
    | some s =>
      unfold grpc_secure_channel_create at hnull
      rw [hf2] at hnull
      simp at hnull
    | none =>
      cases csc2 with
      | none =>
        unfold grpc_secure_channel_create at hnull
        rw [hf2] at hnull
        simp at hnull
      | some p =>
        obtain ⟨sc2, der2⟩ := p
        cases rsv2 with
        | none => simp [hf2]
        | some rr =>
          exfalso
          unfold grpc_secure_channel_create at hnull
          rw [hf2] at hnull
          cases der2 <;>
            simp [client_channel_factory_create_channel, grpc_channel_create,
              grpc_client_channel_finish_initialization, logEvent, scUnref,
              resUnref, chanUnref, destroyNewArgs,
              client_channel_factory_unref] at hnull

/-- Witness for C3 at a concrete input: valid connector creation, failing
resolver creation. -/
theorem C3_witness :
    (grpc_secure_channel_create ⟨some (5, none), none⟩ 0 "t" [] none).1 = .null ∧
    allReleased (grpc_secure_channel_create ⟨some (5, none), none⟩ 0 "t" [] none).2 ∧
    (grpc_secure_channel_create ⟨some (5, none), none⟩ 0 "t" [] none).2.scFreed
      = true ∧
    (grpc_secure_channel_create ⟨some (5, none), none⟩ 0 "t" [] none).2.factoryFreed
      = true ∧
    (grpc_secure_channel_create ⟨some (5, none), none⟩ 0 "t" [] none).2.err
      = false :=
  (C3_resolver_failure_null ⟨some (5, none), none⟩ 0 "t" [] 5 none rfl rfl rfl).1

/-- Counterexample to claim C4 as stated: with a base config holding the entry
base.key and the connector producing a derived fragment holding derived.key,
the merged config the code builds drops the base entry entirely (the derived
fragment replaces the base config instead of being overridden by it), while
the merge described by the claim would keep both entries. -/
theorem C4_counterexample :
    (grpc_secure_channel_create
        ⟨some (7, some [⟨"derived.key", .other "d"⟩]), some 3⟩ 0 "t"
        [⟨"base.key", .other "b"⟩] none).1 =
      .live ⟨"t", [⟨"derived.key", .other "d"⟩,
        ⟨securityConnectorKey, .securityConnector 7⟩], true, true⟩ ∧
    (⟨"base.key", ArgValue.other "b"⟩ : Arg) ∉
      mergedConfig [⟨"base.key", .other "b"⟩]
        (some [⟨"derived.key", .other "d"⟩]) 7 ∧
    (⟨"base.key", ArgValue.other "b"⟩ : Arg) ∈
      specDescribedMerge [⟨"base.key", .other "b"⟩]
        (some [⟨"derived.key", .other "d"⟩]) 7 :=
  ⟨rfl, by decide, by decide⟩

/-- Claim C4 amended: the merged configuration is a copy of the
connector-derived config when the connector produced one, otherwise of the
caller's base config — the two sources are never combined and base entries do
not override derived entries — with the security-connector back-reference
entry appended last; when neither source carries a security-state entry, the
back-reference entry is unique in the result. Proved on the config of the
live channel the construction returns. -/
theorem C4_merge_amended (env : Env) (creds : Nat) (target : String)
    (args : List Arg) (sc : Nat) (derived : Option (List Arg)) (r : Nat)
    (hargs : grpc_find_security_connector_in_args args = none)
    (hcre : env.createSecurityConnector = some (sc, derived))
    (hres : env.resolverCreate = some r)
    (hder : ∀ d, derived = some d → countSecurityArgs d = 0) :
    ∃ c, (grpc_secure_channel_create env creds target args none).1 = .live c ∧
      c.args = mergedConfig args derived sc ∧
      mergedConfig args derived sc =
        derived.getD args ++ [grpc_security_connector_to_arg sc] ∧
      countSecurityArgs c.args = 1 := by
  obtain ⟨csc, rsv⟩ := env
  have hcre2 : csc = some (sc, derived) := hcre
  have hres2 : rsv = some r := hres
  subst hcre2
  subst hres2
  have hone := countSecurityArgs_mergedConfig args derived sc
    (countSecurityArgs_eq_zero_of_find_none args hargs) hder
  cases derived with
  | none =>
    refine ⟨⟨target, args ++ [grpc_security_connector_to_arg sc], true, true⟩,
      ?_, rfl, rfl, hone⟩
    unfold grpc_secure_channel_create
    rw [hargs]
    rfl
  | some d =>
    refine ⟨⟨target, d ++ [grpc_security_connector_to_arg sc], true, true⟩,
      ?_, rfl, rfl, hone⟩
    unfold grpc_secure_channel_create
    rw [hargs]
    rfl

/-- Witness for C4 at a concrete input with a derived config fragment. -/
theorem C4_witness :
    ∃ c, (grpc_secure_channel_create
        ⟨some (7, some [⟨"d", .other "x"⟩]), some 1⟩ 0 "t"
        [⟨"b", .other "y"⟩] none).1 = .live c ∧
      c.args = mergedConfig [⟨"b", .other "y"⟩] (some [⟨"d", .other "x"⟩]) 7 ∧
      mergedConfig [⟨"b", .other "y"⟩] (some [⟨"d", .other "x"⟩]) 7 =
        (some [⟨"d", ArgValue.other "x"⟩]).getD [⟨"b", .other "y"⟩] ++
          [grpc_security_connector_to_arg 7] ∧
      countSecurityArgs c.args = 1 :=
  C4_merge_amended ⟨some (7, some [⟨"d", .other "x"⟩]), some 1⟩ 0 "t"
    [⟨"b", .other "y"⟩] 7 (some [⟨"d", .other "x"⟩]) 1 (by decide) rfl rfl
    (by intro d hd; cases hd; decide)

/-- Claim C6: for valid credentials (successful connector creation), a
resolvable target and an empty base config, the construction returns a live
channel whose merged config contains exactly one security-state entry, with
exactly one resolver created and retained by the channel. -/
theorem C6_live_channel_counts (env : Env) (creds : Nat) (target : String)
    (sc : Nat) (derived : Option (List Arg)) (r : Nat)
    (hcre : env.createSecurityConnector = some (sc, derived))
    (hres : env.resolverCreate = some r)
    (hder : ∀ d, derived = some d → countSecurityArgs d = 0) :
    ∃ c, (grpc_secure_channel_create env creds target [] none).1 = .live c ∧
      countSecurityArgs c.args = 1 ∧ c.holdsResolver = true ∧
      c.holdsFactory = true ∧
      (grpc_secure_channel_create env creds target [] none).2.events.count
        Event.callResolverCreate = 1 ∧
      (grpc_secure_channel_create env creds target [] none).2.resRefs = 1 := by
  obtain ⟨csc, rsv⟩ := env
  have hcre2 : csc = some (sc, derived) := hcre
  have hres2 : rsv = some r := hres
  subst hcre2
  subst hres2
  have hone := countSecurityArgs_mergedConfig [] derived sc rfl hder
  cases derived with
  | none =>
    exact ⟨⟨target, [grpc_security_connector_to_arg sc], true, true⟩,
      rfl, hone, rfl, rfl, rfl, rfl⟩
  | some d =>
    exact ⟨⟨target, d ++ [grpc_security_connector_to_arg sc], true, true⟩,
      rfl, hone, rfl, rfl, rfl, rfl⟩

/-- Witness for C6 at a concrete input: successful connector creation with no
derived fragment and a successful resolver. -/
theorem C6_witness :
    ∃ c, (grpc_secure_channel_create ⟨some (9, none), some 2⟩ 0 "example.com:443"
        [] none).1 = .live c ∧
      countSecurityArgs c.args = 1 ∧ c.holdsResolver = true ∧
      c.holdsFactory = true ∧
      (grpc_secure_channel_create ⟨some (9, none), some 2⟩ 0 "example.com:443"
        [] none).2.events.count Event.callResolverCreate = 1 ∧
      (grpc_secure_channel_create ⟨some (9, none), some 2⟩ 0 "example.com:443"
        [] none).2.resRefs = 1 :=
  C6_live_channel_counts ⟨some (9, none), some 2⟩ 0 "example.com:443" 9 none 2
    rfl rfl (by intro d hd; cases hd)

/-- Claim C10: whenever the connector creation step returns a non-null derived
configuration fragment, the fragment is destroyed exactly once, immediately
after the merged config is produced and before any later step (factory
creation, channel creation, resolver creation). -/
theorem C10_derived_destroyed_once (env : Env) (creds : Nat) (target : String)
    (args : List Arg) (sc : Nat) (d : List Arg)
    (hargs : grpc_find_security_connector_in_args args = none)
    (hcre : env.createSecurityConnector = some (sc, some d)) :
    (grpc_secure_channel_create env creds target args none).2.events.count
        Event.destroyDerivedConfig = 1 ∧
    (grpc_secure_channel_create env creds target args none).2.events.take 4 =
      [Event.callCreateSecurityConnector, Event.mergeProduced,
       Event.destroyDerivedConfig, Event.factoryCreated] := by
  obtain ⟨csc, rsv⟩ := env
  have hcre2 : csc = some (sc, some d) := hcre
  subst hcre2
  cases rsv <;>
    (unfold grpc_secure_channel_create
     rw [hargs]
     simp [client_channel_factory_create_channel, grpc_channel_create,
       grpc_client_channel_finish_initialization, logEvent, scUnref, resUnref,
       chanUnref, destroyNewArgs, client_channel_factory_unref])

/-- Witness for C10 at a concrete input with a derived config fragment. -/
theorem C10_witness :
    (grpc_secure_channel_create ⟨some (5, some [⟨"d", .other "x"⟩]), some 1⟩ 0
        "t" [] none).2.events.count Event.destroyDerivedConfig = 1 ∧
    (grpc_secure_channel_create ⟨some (5, some [⟨"d", .other "x"⟩]), some 1⟩ 0
        "t" [] none).2.events.take 4 =
      [Event.callCreateSecurityConnector, Event.mergeProduced,
       Event.destroyDerivedConfig, Event.factoryCreated] :=
  C10_derived_destroyed_once ⟨some (5, some [⟨"d", .other "x"⟩]), some 1⟩ 0 "t"
    [] 5 [⟨"d", .other "x"⟩] rfl rfl

end SecureChannelCreate
